import Mathlib

/-!
Verification of the campaign data-flow and video job-polling logic of the
brand-studio application.  The definitions below are a shallow embedding of
the TypeScript service layer (`geminiService`) and of the campaign-related
state updates in the screen components.  Remote calls are modelled by
passing the gateway's responses in as explicit parameters; the `while`
poll loop is modelled with an explicit fuel argument so that it is a total
Lean function, with fuel exhaustion (`none`) standing for a run that has
not yet terminated.
-/

namespace BrandStudio

/-! ## Video operations and the Job Poller

Embeds the Veo section of the service module: the operation value returned
by `generateVideos` / `getVideosOperation` carries a `done` flag and an
optional chain `response?.generatedVideos?.[0]?.video?.uri`.  Each level of
the optional chain is an `Option`, mirroring the `?.` accesses.
-/

/-- The `video` object inside a generated-video entry; `uri` may be absent. -/
structure VideoFile where
  uri : Option String
deriving Repr

/-- One entry of `generatedVideos`; its `video` field may be absent. -/
structure GeneratedVideo where
  video : Option VideoFile
deriving Repr

/-- The `response` object of a completed operation; `generatedVideos` may be absent. -/
structure VideoOpResponse where
  generatedVideos : Option (List GeneratedVideo)
deriving Repr

/-- The long-running operation handle: a `done` flag plus an optional response. -/
structure VideoOperation where
  done : Bool
  response : Option VideoOpResponse
deriving Repr

/-- `operation.response?.generatedVideos?.[0]?.video?.uri` — the optional
chain the code reads after the poll loop ends. -/
def downloadLinkOf (op : VideoOperation) : Option String :=
  ((((op.response.bind VideoOpResponse.generatedVideos).bind List.head?).bind
      GeneratedVideo.video).bind VideoFile.uri)

/-- The fixed delay before each re-query: `setTimeout(resolve, 5000)`. -/
def pollDelayMs : Nat := 5000

/-- Result of running the poll loop: the final operation (`none` when the
fuel ran out before `done` became true), the number of delayed re-queries
performed, and the total milliseconds spent waiting. -/
structure PollOutcome where
  final : Option VideoOperation
  requeries : Nat
  waitedMs : Nat
deriving Repr

/-- The poll loop shared by `generateVideoFromPrompt` and
`animateImageWithVeo`:

  while (!operation.done) ⦃ await sleep(5000); operation = getVideosOperation(...) ⦄

`requery k` is the operation returned by the gateway on the k-th re-query
(0-based); `count` and `waited` accumulate the re-queries performed and the
milliseconds slept so far. -/
def pollLoop (requery : Nat → VideoOperation) :
    Nat → VideoOperation → Nat → Nat → PollOutcome
  | fuel, op, count, waited =>
    if op.done then ⟨some op, count, waited⟩
    else
      match fuel with
      | 0 => ⟨none, count, waited⟩
      | fuel' + 1 =>
          pollLoop requery fuel' (requery count) (count + 1) (waited + pollDelayMs)

/-- `generateVideoFromPrompt`, from the submitted operation on: poll to
completion, then read the download link; `if (!downloadLink) throw new
Error("Video generation failed")` (an absent or empty link is falsy), else
return the link with `&key=` and the API key appended. -/
def generateVideoFromPrompt (apiKey : String) (fuel : Nat)
    (submitted : VideoOperation) (requery : Nat → VideoOperation) :
    Option (Except String String) :=
  match (pollLoop requery fuel submitted 0 0).final with
  | none => none
  | some op =>
      some (match downloadLinkOf op with
            | none => Except.error "Video generation failed"
            | some u =>
                if u = "" then Except.error "Video generation failed"
                else Except.ok (u ++ "&key=" ++ apiKey))

/-- `prompt || "Animate this image cinematically"`: JavaScript `||` takes the
default when the prompt is `undefined` or the empty string. -/
def animateVeoPrompt (prompt : Option String) : String :=
  match prompt with
  | none => "Animate this image cinematically"
  | some p => if p = "" then "Animate this image cinematically" else p

/-- `animateImageWithVeo`, from the submitted operation on: the same poll
loop, then the same link extraction with error message
"Video animation failed". -/
def animateImageWithVeo (apiKey : String) (fuel : Nat)
    (submitted : VideoOperation) (requery : Nat → VideoOperation) :
    Option (Except String String) :=
  match (pollLoop requery fuel submitted 0 0).final with
  | none => none
  | some op =>
      some (match downloadLinkOf op with
            | none => Except.error "Video animation failed"
            | some u =>
                if u = "" then Except.error "Video animation failed"
                else Except.ok (u ++ "&key=" ++ apiKey))

/-! ## Structured extraction (Campaign Extractor)

`extractCampaignDetails` sends the strategy text (truncated with
`substring(0, 5000)`) in a schema-constrained request and then runs
`JSON.parse(response.text)` on the raw payload, returning the parsed value
unchecked.  Strings manipulated character-wise are modelled as `List Char`
(the sequence of code units); `JSON.parse` is the platform's JSON parser,
so its outcome on the raw payload is modelled as an `Option Json`: `none`
when the payload is not valid JSON, `some j` when it parses to `j`.
-/

/-- A parsed JSON value (the possible results of `JSON.parse`). -/
inductive Json where
  | null : Json
  | bool (b : Bool) : Json
  | num (n : Int) : Json
  | str (s : String) : Json
  | arr (elems : List Json) : Json
  | obj (fields : List (String × Json)) : Json

/-- Property access on a parsed JSON value: defined on objects, absent
(`undefined`) otherwise. -/
def Json.getField : Json → String → Option Json
  | .obj fields, name => fields.lookup name
  | _, _ => none

/-- Is this JSON value a string? -/
def Json.isStr : Json → Bool
  | .str _ => true
  | _ => false

/-- Read a JSON value as a string. -/
def Json.asStr : Json → Option String
  | .str s => some s
  | _ => none

/-- Read a JSON array's elements as strings, all of them. -/
def asStrList : List Json → Option (List String)
  | [] => some []
  | j :: js =>
    match j.asStr, asStrList js with
    | some s, some ss => some (s :: ss)
    | _, _ => none

/-- The response shape requested by the extraction call's `responseSchema`:
an object whose `visualStyle`, `videoConcept` and `targetAudience` fields
are strings and whose `socialHooks` field is an array of strings. -/
def matchesRequestedShape (j : Json) : Bool :=
  (j.getField "visualStyle").any Json.isStr &&
  (j.getField "videoConcept").any Json.isStr &&
  ((j.getField "socialHooks").any fun v =>
      match v with
      | .arr es => es.all Json.isStr
      | _ => false) &&
  (j.getField "targetAudience").any Json.isStr

/-- The extractor's failure: `JSON.parse` threw on an invalid payload. -/
inductive ExtractError where
  | parseError : ExtractError

/-- `extractCampaignDetails`, response side: `return JSON.parse(response.text)`.
The raw payload is given as its `JSON.parse` outcome (`none` = invalid
JSON); a successfully parsed value is returned as-is, with no further
validation. -/
def extractCampaignDetails (payload : Option Json) : Except ExtractError Json :=
  match payload with
  | none => Except.error ExtractError.parseError
  | some j => Except.ok j

/-- The `ActiveCampaign` record of `types.ts`. -/
structure ActiveCampaign where
  brandName : String
  visualStyle : String
  videoConcept : String
  socialHooks : List String
  targetAudience : String

/-- How the consumers read the value cast to `ActiveCampaign`: field
projections on the parsed JSON object, defined exactly when the value has
the requested shape. -/
def campaignOfJson (brandName : String) (j : Json) : Option ActiveCampaign :=
  match j.getField "visualStyle", j.getField "videoConcept",
        j.getField "socialHooks", j.getField "targetAudience" with
  | some (.str vs), some (.str vc), some (.arr es), some (.str ta) =>
      match asStrList es with
      | some hooks => some ⟨brandName, vs, vc, hooks, ta⟩
      | none => none
  | _, _, _, _ => none

/-- What the Campaign Store holds after a successful activation:
`⦃ ...details, brandName ⦄` — the parsed details together with the brand
name typed on the Strategy screen. -/
structure StoredCampaign where
  brandName : String
  details : Json

/-- The campaign-activation portion of `StrategyAgent.handleRun`: call the
extractor inside `try/catch`; on success activate `⦃ ...details, brandName ⦄`,
on failure log and fall through, leaving the store as it was. -/
def handleRunActivation (brandName : String) (payload : Option Json)
    (store : Option StoredCampaign) : Option StoredCampaign :=
  match extractCampaignDetails payload with
  | Except.error _ => store
  | Except.ok details => some ⟨brandName, details⟩

/-! ### The extraction request -/

/-- Text before the interpolated strategy text in the extraction prompt. -/
def extractPromptHead : List Char :=
  ("Analyze the following marketing strategy and extract structured campaign assets.\n  \n  Strategy Text:\n  ").data

/-- Text after the interpolated strategy text in the extraction prompt. -/
def extractPromptTail : List Char :=
  ("\n  \n  Return a JSON object with:\n  - visualStyle: A detailed prompt describing the visual aesthetic (lighting, color palette, mood) suitable for an image generator.\n  - videoConcept: A specific, cinematic video scene description suitable for a video generation model (e.g. \"Drone shot of...\").\n  - socialHooks: An array of 3 short, punchy social media headlines/hooks.\n  - targetAudience: A 1-sentence summary of the target audience.\n  ").data

/-- The prompt built by `extractCampaignDetails`: the template with
`strategyText.substring(0, 5000)` interpolated — the first 5000 characters
of the strategy text. -/
def extractPrompt (strategyText : List Char) : List Char :=
  extractPromptHead ++ strategyText.take 5000 ++ extractPromptTail

/-- A node of the `responseSchema` value passed in the request config. -/
inductive RespSchema where
  | string : RespSchema
  | array (items : RespSchema) : RespSchema
  | object (properties : List (String × RespSchema)) : RespSchema

/-- The `responseSchema` of the extraction request. -/
def extractResponseSchema : RespSchema :=
  RespSchema.object
    [("visualStyle", RespSchema.string),
     ("videoConcept", RespSchema.string),
     ("socialHooks", RespSchema.array RespSchema.string),
     ("targetAudience", RespSchema.string)]

/-- The property names an object schema asks for. -/
def RespSchema.fieldNames : RespSchema → List String
  | .object props => props.map Prod.fst
  | _ => []

/-! ## Auto-fill from the campaign

The `useEffect` bodies of the two consumer screens, as functions from the
current state to the new value of the local prompt field.  JavaScript
`!genPrompt` is true exactly on the empty string.
-/

/-- The tabs of the Image Studio screen. -/
inductive ImageTab where
  | generate | remix | analyze
deriving DecidableEq

/-- The campaign-derived string the Image Studio fills in. -/
def imageGenAutoFillText (c : ActiveCampaign) : String :=
  "Create a high-quality marketing image for " ++ c.brandName ++ ". " ++ c.visualStyle

/-- The Image Studio auto-fill effect: fill `genPrompt` from the campaign
only when a campaign is active, the generate tab is shown, and the field is
empty; otherwise leave the field alone. -/
def imageStudioAutoFill (activeCampaign : Option ActiveCampaign)
    (activeTab : ImageTab) (genPrompt : String) : String :=
  match activeCampaign with
  | some c =>
      if activeTab = ImageTab.generate ∧ genPrompt = "" then imageGenAutoFillText c
      else genPrompt
  | none => genPrompt

/-- The Video Lab auto-fill effect: fill `prompt` with the campaign's
`videoConcept` only when a campaign is active and the field is empty. -/
def videoLabAutoFill (activeCampaign : Option ActiveCampaign)
    (prompt : String) : String :=
  match activeCampaign with
  | some c => if prompt = "" then c.videoConcept else prompt
  | none => prompt

/-! ## Image generation responses

The part-scanning loop of `generateProImage` and `editImageWithFlash`:
`for (const part of response.candidates?.[0]?.content?.parts || [])`,
returning a data URI from the first part with `inlineData`, else throwing.
-/

/-- Inline media data carried by a content part. -/
structure InlineData where
  data : String

/-- One content part: optional text, optional inline media. -/
structure ContentPart where
  text : Option String := none
  inlineData : Option InlineData := none

/-- The `content` object of a candidate; its `parts` may be absent. -/
structure CandidateContent where
  parts : Option (List ContentPart) := none

/-- One response candidate; its `content` may be absent. -/
structure ResponseCandidate where
  content : Option CandidateContent := none

/-- A `generateContent` response: an optional list of candidates. -/
structure GenContentResponse where
  candidates : Option (List ResponseCandidate) := none

/-- `response.candidates?.[0]?.content?.parts || []` — the parts of the
first candidate, or the empty list when any link of the chain is absent. -/
def candidateParts (r : GenContentResponse) : List ContentPart :=
  (((r.candidates.bind List.head?).bind ResponseCandidate.content).bind
      CandidateContent.parts).getD []

/-- The first part carrying `inlineData`, if any. -/
def firstInlineData (parts : List ContentPart) : Option InlineData :=
  parts.findSome? ContentPart.inlineData

/-- `generateProImage`, response side: return
`data:image/png;base64,` + the first inline part's data, or throw
"No image generated". -/
def generateProImage (r : GenContentResponse) : Except String String :=
  match firstInlineData (candidateParts r) with
  | some d => Except.ok ("data:image/png;base64," ++ d.data)
  | none => Except.error "No image generated"

/-- `editImageWithFlash`, response side: the same scan with error message
"No edited image returned". -/
def editImageWithFlash (r : GenContentResponse) : Except String String :=
  match firstInlineData (candidateParts r) with
  | some d => Except.ok ("data:image/png;base64," ++ d.data)
  | none => Except.error "No edited image returned"

/-! ## Local file round-trip

`handleFileChange` stores `reader.readAsDataURL(file)`'s result, a string
`data:<mime>;base64,<payload>`; `handleRemix` later extracts the payload
with `remixSource.split(',')[1]`.  Strings are modelled as `List Char`.
-/

/-- JavaScript `s.split(',')`: the comma-separated segments of `s`
(an empty string yields one empty segment). -/
def jsSplitComma : List Char → List (List Char)
  | [] => [[]]
  | c :: rest =>
    if c = ',' then [] :: jsSplitComma rest
    else
      match jsSplitComma rest with
      | [] => [[c]]
      | seg :: segs => (c :: seg) :: segs

/-- The data URI `readAsDataURL` produces for a file of the given MIME type
and base64-encoded content. -/
def readAsDataURLChars (mime payload : List Char) : List Char :=
  ("data:").data ++ mime ++ (";base64,").data ++ payload

/-- `remixSource.split(',')[1]` — the second comma-separated segment of the
stored data URI (`undefined` when there is none). -/
def remixBase64Data (source : List Char) : Option (List Char) :=
  (jsSplitComma source)[1]?

/-- Characters of the base64 alphabet (with padding). -/
def isBase64Char (c : Char) : Bool :=
  c.isAlphanum || c = '+' || c = '/' || c = '='

/-! # Theorems -/

/-! ### Poll-loop unfolding lemmas -/

theorem pollLoop_done (rq : Nat → VideoOperation) (fuel : Nat)
    (op : VideoOperation) (c w : Nat) (h : op.done = true) :
    pollLoop rq fuel op c w = ⟨some op, c, w⟩ := by
  cases fuel <;> simp [pollLoop, h]

theorem pollLoop_pending_zero (rq : Nat → VideoOperation)
    (op : VideoOperation) (c w : Nat) (h : op.done = false) :
    pollLoop rq 0 op c w = ⟨none, c, w⟩ := by
  simp [pollLoop, h]

theorem pollLoop_pending_succ (rq : Nat → VideoOperation) (fuel : Nat)
    (op : VideoOperation) (c w : Nat) (h : op.done = false) :
    pollLoop rq (fuel + 1) op c w =
      pollLoop rq fuel (rq c) (c + 1) (w + pollDelayMs) := by
  simp [pollLoop, h]

theorem pollLoop_never (rq : Nat → VideoOperation)
    (hall : ∀ k, (rq k).done = false) :
    ∀ (fuel c w : Nat) (op : VideoOperation), op.done = false →
      pollLoop rq fuel op c w = ⟨none, c + fuel, w + fuel * pollDelayMs⟩ := by
  intro fuel
  induction fuel with
  | zero =>
      intro c w op h
      simp [pollLoop_pending_zero rq op c w h]
  | succ f ih =>
      intro c w op h
      rw [pollLoop_pending_succ rq f op c w h, ih (c + 1) (w + pollDelayMs) (rq c) (hall c)]
      simp only [PollOutcome.mk.injEq]
      exact ⟨by trivial, by omega, by ring⟩

/-- C1: while the operation is not done, the poller waits the fixed 5000 ms
and re-queries; for a status sequence done:false, done:false, done:true
with a result URI it performs exactly two delayed re-queries (waiting
2 × 5000 ms in total) before returning the URL, and an operation that is
done on submission gets zero re-queries. -/
theorem jobPoller_requery_counts (apiKey : String) (fuel : Nat)
    (op : VideoOperation) (rq : Nat → VideoOperation) (u : String)
    (h0 : op.done = false) (h1 : (rq 0).done = false) (h2 : (rq 1).done = true)
    (hfuel : 2 ≤ fuel)
    (hu : downloadLinkOf (rq 1) = some u) (hne : u ≠ "") :
    pollLoop rq fuel op 0 0 = ⟨some (rq 1), 2, 2 * pollDelayMs⟩ ∧
    generateVideoFromPrompt apiKey fuel op rq =
      some (Except.ok (u ++ "&key=" ++ apiKey)) ∧
    animateImageWithVeo apiKey fuel op rq =
      some (Except.ok (u ++ "&key=" ++ apiKey)) ∧
    (∀ op2 : VideoOperation, op2.done = true → ∀ f2 : Nat,
        pollLoop rq f2 op2 0 0 = ⟨some op2, 0, 0⟩) := by
  obtain ⟨f, rfl⟩ : ∃ f, fuel = f + 2 := ⟨fuel - 2, by omega⟩
  have hp : pollLoop rq (f + 2) op 0 0 = ⟨some (rq 1), 2, 2 * pollDelayMs⟩ := by
    rw [show f + 2 = (f + 1) + 1 from rfl,
        pollLoop_pending_succ rq (f + 1) op 0 0 h0,
        pollLoop_pending_succ rq f (rq 0) (0 + 1) (0 + pollDelayMs) h1,
        pollLoop_done rq f (rq 1) (0 + 1 + 1) (0 + pollDelayMs + pollDelayMs) h2]
    simp only [PollOutcome.mk.injEq]
    exact ⟨by trivial, by trivial, by ring⟩
  refine ⟨hp, ?_, ?_, fun op2 hd f2 => pollLoop_done rq f2 op2 0 0 hd⟩
  · simp [generateVideoFromPrompt, hp, hu, hne]
  · simp [animateImageWithVeo, hp, hu, hne]

/-- C1 witness: a concrete run whose status sequence is done:false,
done:false, then done:true with URI "http://v?x=1". -/
theorem jobPoller_requery_counts_witness :
    pollLoop
        (fun k => if k = 1 then
            VideoOperation.mk true
              (some ⟨some [⟨some ⟨some "http://v?x=1"⟩⟩]⟩)
          else VideoOperation.mk false none)
        5 (VideoOperation.mk false none) 0 0 =
      ⟨some (VideoOperation.mk true
              (some ⟨some [⟨some ⟨some "http://v?x=1"⟩⟩]⟩)), 2, 2 * pollDelayMs⟩ ∧
    generateVideoFromPrompt "KEY" 5 (VideoOperation.mk false none)
        (fun k => if k = 1 then
            VideoOperation.mk true
              (some ⟨some [⟨some ⟨some "http://v?x=1"⟩⟩]⟩)
          else VideoOperation.mk false none) =
      some (Except.ok ("http://v?x=1" ++ "&key=" ++ "KEY")) ∧
    animateImageWithVeo "KEY" 5 (VideoOperation.mk false none)
        (fun k => if k = 1 then
            VideoOperation.mk true
              (some ⟨some [⟨some ⟨some "http://v?x=1"⟩⟩]⟩)
          else VideoOperation.mk false none) =
      some (Except.ok ("http://v?x=1" ++ "&key=" ++ "KEY")) ∧
    (∀ op2 : VideoOperation, op2.done = true → ∀ f2 : Nat,
        pollLoop
          (fun k => if k = 1 then
              VideoOperation.mk true
                (some ⟨some [⟨some ⟨some "http://v?x=1"⟩⟩]⟩)
            else VideoOperation.mk false none)
          f2 op2 0 0 = ⟨some op2, 0, 0⟩) :=
  jobPoller_requery_counts "KEY" 5 (VideoOperation.mk false none)
    (fun k => if k = 1 then
        VideoOperation.mk true (some ⟨some [⟨some ⟨some "http://v?x=1"⟩⟩]⟩)
      else VideoOperation.mk false none)
    "http://v?x=1" rfl rfl rfl (by omega) rfl (by decide)

/-- C2: for an operation whose status never becomes done, the poll loop
never terminates: with any amount of fuel it performs exactly that many
fixed-delay re-queries and still has no final operation, so both video
entry points remain unfinished for every fuel bound. -/
theorem jobPoller_never_terminates (apiKey : String) (op : VideoOperation)
    (rq : Nat → VideoOperation)
    (h0 : op.done = false) (hall : ∀ k, (rq k).done = false) :
    ∀ fuel : Nat,
      pollLoop rq fuel op 0 0 = ⟨none, fuel, fuel * pollDelayMs⟩ ∧
      generateVideoFromPrompt apiKey fuel op rq = none ∧
      animateImageWithVeo apiKey fuel op rq = none := by
  intro fuel
  have hp : pollLoop rq fuel op 0 0 = ⟨none, fuel, fuel * pollDelayMs⟩ := by
    have := pollLoop_never rq hall fuel 0 0 op h0
    simpa using this
  exact ⟨hp, by simp [generateVideoFromPrompt, hp], by simp [animateImageWithVeo, hp]⟩

/-- C2 witness: a concrete never-done operation, evaluated at fuel 3. -/
theorem jobPoller_never_terminates_witness :
    pollLoop (fun _ => VideoOperation.mk false none) 3
        (VideoOperation.mk false none) 0 0 =
      ⟨none, 3, 3 * pollDelayMs⟩ ∧
    generateVideoFromPrompt "KEY" 3 (VideoOperation.mk false none)
        (fun _ => VideoOperation.mk false none) = none ∧
    animateImageWithVeo "KEY" 3 (VideoOperation.mk false none)
        (fun _ => VideoOperation.mk false none) = none :=
  jobPoller_never_terminates "KEY" (VideoOperation.mk false none)
    (fun _ => VideoOperation.mk false none) rfl (fun _ => rfl) 3

/-- C3: a completed operation is never re-polled (zero re-queries); when it
carries no media URI both video entry points fail at once with their
no-result error, and a run starting from it succeeds exactly when the
operation carries a non-empty media URI. -/
theorem jobPoller_failFast_on_missing_uri (apiKey : String) (fuel : Nat)
    (op : VideoOperation) (rq : Nat → VideoOperation)
    (hdone : op.done = true) :
    (pollLoop rq fuel op 0 0).requeries = 0 ∧
    (downloadLinkOf op = none →
        generateVideoFromPrompt apiKey fuel op rq =
          some (Except.error "Video generation failed") ∧
        animateImageWithVeo apiKey fuel op rq =
          some (Except.error "Video animation failed")) ∧
    ((∃ url, generateVideoFromPrompt apiKey fuel op rq = some (Except.ok url)) ↔
        ∃ u, downloadLinkOf op = some u ∧ u ≠ "") := by
  have hp := pollLoop_done rq fuel op 0 0 hdone
  refine ⟨by rw [hp], ?_, ?_⟩
  · intro hnone
    exact ⟨by simp [generateVideoFromPrompt, hp, hnone],
           by simp [animateImageWithVeo, hp, hnone]⟩
  · rcases hdl : downloadLinkOf op with _ | u
    · simp [generateVideoFromPrompt, hp, hdl]
    · by_cases hu : u = ""
      · subst hu
        simp [generateVideoFromPrompt, hp, hdl]
      · simp [generateVideoFromPrompt, hp, hdl, hu]

/-- C3 witness: a concrete completed operation with no response at all. -/
theorem jobPoller_failFast_on_missing_uri_witness :
    (pollLoop (fun _ => VideoOperation.mk true none) 4
        (VideoOperation.mk true none) 0 0).requeries = 0 ∧
    (downloadLinkOf (VideoOperation.mk true none) = none →
        generateVideoFromPrompt "KEY" 4 (VideoOperation.mk true none)
            (fun _ => VideoOperation.mk true none) =
          some (Except.error "Video generation failed") ∧
        animateImageWithVeo "KEY" 4 (VideoOperation.mk true none)
            (fun _ => VideoOperation.mk true none) =
          some (Except.error "Video animation failed")) ∧
    ((∃ url, generateVideoFromPrompt "KEY" 4 (VideoOperation.mk true none)
          (fun _ => VideoOperation.mk true none) = some (Except.ok url)) ↔
        ∃ u, downloadLinkOf (VideoOperation.mk true none) = some u ∧ u ≠ "") :=
  jobPoller_failFast_on_missing_uri "KEY" 4 (VideoOperation.mk true none)
    (fun _ => VideoOperation.mk true none) rfl

/-- C10: a successful run returns not the bare media URI but the URI with
the literal "&key=" and the environment API credential appended. -/
theorem videoUrl_embeds_apiKey (apiKey : String) (fuel : Nat)
    (op : VideoOperation) (rq : Nat → VideoOperation)
    (opF : VideoOperation) (u : String)
    (hF : (pollLoop rq fuel op 0 0).final = some opF)
    (hu : downloadLinkOf opF = some u) (hne : u ≠ "") :
    generateVideoFromPrompt apiKey fuel op rq =
      some (Except.ok (u ++ "&key=" ++ apiKey)) ∧
    animateImageWithVeo apiKey fuel op rq =
      some (Except.ok (u ++ "&key=" ++ apiKey)) ∧
    u ++ "&key=" ++ apiKey ≠ u := by
  refine ⟨?_, ?_, ?_⟩
  · simp [generateVideoFromPrompt, hF, hu, hne]
  · simp [animateImageWithVeo, hF, hu, hne]
  · intro h
    have hlen := congrArg String.length h
    rw [String.length_append, String.length_append] at hlen
    have h5 : ("&key=").length = 5 := rfl
    omega

/-- C10 witness: a concrete completed operation carrying URI "http://v?x=1"
and credential "SECRET". -/
theorem videoUrl_embeds_apiKey_witness :
    generateVideoFromPrompt "SECRET" 0
        (VideoOperation.mk true (some ⟨some [⟨some ⟨some "http://v?x=1"⟩⟩]⟩))
        (fun _ => VideoOperation.mk true none) =
      some (Except.ok ("http://v?x=1" ++ "&key=" ++ "SECRET")) ∧
    animateImageWithVeo "SECRET" 0
        (VideoOperation.mk true (some ⟨some [⟨some ⟨some "http://v?x=1"⟩⟩]⟩))
        (fun _ => VideoOperation.mk true none) =
      some (Except.ok ("http://v?x=1" ++ "&key=" ++ "SECRET")) ∧
    "http://v?x=1" ++ "&key=" ++ "SECRET" ≠ "http://v?x=1" :=
  videoUrl_embeds_apiKey "SECRET" 0
    (VideoOperation.mk true (some ⟨some [⟨some ⟨some "http://v?x=1"⟩⟩]⟩))
    (fun _ => VideoOperation.mk true none)
    (VideoOperation.mk true (some ⟨some [⟨some ⟨some "http://v?x=1"⟩⟩]⟩))
    "http://v?x=1" rfl rfl (by decide)

/-! ### Extractor lemmas -/

theorem any_isStr_eq (o : Option Json) (h : o.any Json.isStr = true) :
    ∃ s, o = some (Json.str s) := by
  rcases o with _ | v
  · simp [Option.any] at h
  · cases v with
    | str s => exact ⟨s, rfl⟩
    | null => simp [Option.any, Json.isStr] at h
    | bool b => simp [Option.any, Json.isStr] at h
    | num n => simp [Option.any, Json.isStr] at h
    | arr es => simp [Option.any, Json.isStr] at h
    | obj fs => simp [Option.any, Json.isStr] at h

theorem any_strArr_eq (o : Option Json)
    (h : o.any (fun v =>
        match v with
        | .arr es => es.all Json.isStr
        | _ => false) = true) :
    ∃ es, o = some (Json.arr es) ∧ es.all Json.isStr = true := by
  rcases o with _ | v
  · simp [Option.any] at h
  · cases v with
    | arr es => exact ⟨es, rfl, by simpa [Option.any] using h⟩
    | str s => simp [Option.any] at h
    | null => simp [Option.any] at h
    | bool b => simp [Option.any] at h
    | num n => simp [Option.any] at h
    | obj fs => simp [Option.any] at h

theorem asStrList_of_all (es : List Json) (h : es.all Json.isStr = true) :
    ∃ hs : List String, asStrList es = some hs ∧ hs.length = es.length := by
  induction es with
  | nil => exact ⟨[], rfl, rfl⟩
  | cons e es ih =>
      rw [List.all_cons, Bool.and_eq_true] at h
      obtain ⟨he, hes⟩ := h
      cases e with
      | str s =>
          obtain ⟨hs, hhs, hlen⟩ := ih hes
          exact ⟨s :: hs, by simp [asStrList, Json.asStr, hhs], by simp [hlen]⟩
      | null => simp [Json.isStr] at he
      | bool b => simp [Json.isStr] at he
      | num n => simp [Json.isStr] at he
      | arr es2 => simp [Json.isStr] at he
      | obj fs => simp [Json.isStr] at he

/-- C4 counterexample: the payload consisting of the JSON object with the
single field "foo" is valid JSON but violates the requested four-field
shape, yet the extractor does not fail — it returns the value unchanged —
and the activation step stores a campaign built from it. -/
theorem extractor_no_shape_validation_cex :
    matchesRequestedShape (Json.obj [("foo", Json.num 1)]) = false ∧
    extractCampaignDetails (some (Json.obj [("foo", Json.num 1)])) =
      Except.ok (Json.obj [("foo", Json.num 1)]) ∧
    handleRunActivation "Acme" (some (Json.obj [("foo", Json.num 1)])) none =
      some ⟨"Acme", Json.obj [("foo", Json.num 1)]⟩ :=
  ⟨rfl, rfl, rfl⟩

/-- C4 (amended): the extractor fails with a ParseError exactly when the
raw payload is not valid JSON — a valid-JSON payload is accepted with no
shape validation — and whenever extraction fails, the caller catches the
error, activation is skipped, and the Campaign Store is left untouched. -/
theorem extractor_parse_failure_skips_activation (brand : String)
    (payload : Option Json) (store : Option StoredCampaign) :
    ((∃ e, extractCampaignDetails payload = Except.error e) ↔ payload = none) ∧
    (payload = none → handleRunActivation brand payload store = store) := by
  cases payload with
  | none =>
      exact ⟨⟨fun _ => rfl, fun _ => ⟨ExtractError.parseError, rfl⟩⟩, fun _ => rfl⟩
  | some j =>
      refine ⟨⟨?_, ?_⟩, ?_⟩
      · rintro ⟨e, he⟩
        simp [extractCampaignDetails] at he
      · intro h
        simp at h
      · intro h
        simp at h

/-- C4 witness: an invalid-JSON payload fails and leaves a previously
stored campaign in place. -/
theorem extractor_parse_failure_skips_activation_witness :
    ((∃ e, extractCampaignDetails none = Except.error e) ↔
        (none : Option Json) = none) ∧
    ((none : Option Json) = none →
        handleRunActivation "NewBrand" none (some ⟨"OldBrand", Json.null⟩) =
          some ⟨"OldBrand", Json.null⟩) :=
  extractor_parse_failure_skips_activation "NewBrand" none
    (some ⟨"OldBrand", Json.null⟩)

/-- C5: on a valid-JSON payload of the requested shape, extraction returns
the parsed value unchanged, the campaign read from it has its
`visualStyle`, `videoConcept` and `targetAudience` identical to the JSON
string fields, and its `socialHooks` length equals the length of the JSON
array. -/
theorem extractor_preserves_fields (brand : String) (j : Json)
    (hshape : matchesRequestedShape j = true) :
    extractCampaignDetails (some j) = Except.ok j ∧
    ∃ c : ActiveCampaign, campaignOfJson brand j = some c ∧
      c.brandName = brand ∧
      (∀ s, j.getField "visualStyle" = some (Json.str s) → c.visualStyle = s) ∧
      (∀ s, j.getField "videoConcept" = some (Json.str s) → c.videoConcept = s) ∧
      (∀ s, j.getField "targetAudience" = some (Json.str s) → c.targetAudience = s) ∧
      (∀ es, j.getField "socialHooks" = some (Json.arr es) →
          c.socialHooks.length = es.length) := by
  refine ⟨rfl, ?_⟩
  unfold matchesRequestedShape at hshape
  simp only [Bool.and_eq_true] at hshape
  obtain ⟨⟨⟨hvs, hvc⟩, hsh⟩, hta⟩ := hshape
  obtain ⟨s1, hv1⟩ := any_isStr_eq _ hvs
  obtain ⟨s2, hv2⟩ := any_isStr_eq _ hvc
  obtain ⟨es, hv3, hall⟩ := any_strArr_eq _ hsh
  obtain ⟨s4, hv4⟩ := any_isStr_eq _ hta
  obtain ⟨hooks, hhooks, hlen⟩ := asStrList_of_all es hall
  refine ⟨⟨brand, s1, s2, hooks, s4⟩, ?_, rfl, ?_, ?_, ?_, ?_⟩
  · simp [campaignOfJson, hv1, hv2, hv3, hv4, hhooks]
  · intro s hs
    rw [hv1] at hs
    simp only [Option.some.injEq, Json.str.injEq] at hs
    exact hs
  · intro s hs
    rw [hv2] at hs
    simp only [Option.some.injEq, Json.str.injEq] at hs
    exact hs
  · intro s hs
    rw [hv4] at hs
    simp only [Option.some.injEq, Json.str.injEq] at hs
    exact hs
  · intro es2 hs
    rw [hv3] at hs
    simp only [Option.some.injEq, Json.arr.injEq] at hs
    rw [← hs]
    exact hlen

/-- C5 witness: a concrete shape-conforming payload with three hooks. -/
theorem extractor_preserves_fields_witness :
    extractCampaignDetails
        (some (Json.obj
          [("visualStyle", Json.str "neon noir"),
           ("videoConcept", Json.str "Drone shot of a city"),
           ("socialHooks", Json.arr [Json.str "h1", Json.str "h2", Json.str "h3"]),
           ("targetAudience", Json.str "urban creatives")])) =
      Except.ok (Json.obj
        [("visualStyle", Json.str "neon noir"),
         ("videoConcept", Json.str "Drone shot of a city"),
         ("socialHooks", Json.arr [Json.str "h1", Json.str "h2", Json.str "h3"]),
         ("targetAudience", Json.str "urban creatives")]) ∧
    ∃ c : ActiveCampaign,
      campaignOfJson "EcoKicks" (Json.obj
        [("visualStyle", Json.str "neon noir"),
         ("videoConcept", Json.str "Drone shot of a city"),
         ("socialHooks", Json.arr [Json.str "h1", Json.str "h2", Json.str "h3"]),
         ("targetAudience", Json.str "urban creatives")]) = some c ∧
      c.brandName = "EcoKicks" ∧
      (∀ s, (Json.obj
        [("visualStyle", Json.str "neon noir"),
         ("videoConcept", Json.str "Drone shot of a city"),
         ("socialHooks", Json.arr [Json.str "h1", Json.str "h2", Json.str "h3"]),
         ("targetAudience", Json.str "urban creatives")]).getField "visualStyle" =
          some (Json.str s) → c.visualStyle = s) ∧
      (∀ s, (Json.obj
        [("visualStyle", Json.str "neon noir"),
         ("videoConcept", Json.str "Drone shot of a city"),
         ("socialHooks", Json.arr [Json.str "h1", Json.str "h2", Json.str "h3"]),
         ("targetAudience", Json.str "urban creatives")]).getField "videoConcept" =
          some (Json.str s) → c.videoConcept = s) ∧
      (∀ s, (Json.obj
        [("visualStyle", Json.str "neon noir"),
         ("videoConcept", Json.str "Drone shot of a city"),
         ("socialHooks", Json.arr [Json.str "h1", Json.str "h2", Json.str "h3"]),
         ("targetAudience", Json.str "urban creatives")]).getField "targetAudience" =
          some (Json.str s) → c.targetAudience = s) ∧
      (∀ es, (Json.obj
        [("visualStyle", Json.str "neon noir"),
         ("videoConcept", Json.str "Drone shot of a city"),
         ("socialHooks", Json.arr [Json.str "h1", Json.str "h2", Json.str "h3"]),
         ("targetAudience", Json.str "urban creatives")]).getField "socialHooks" =
          some (Json.arr es) → c.socialHooks.length = es.length) :=
  extractor_preserves_fields "EcoKicks"
    (Json.obj
      [("visualStyle", Json.str "neon noir"),
       ("videoConcept", Json.str "Drone shot of a city"),
       ("socialHooks", Json.arr [Json.str "h1", Json.str "h2", Json.str "h3"]),
       ("targetAudience", Json.str "urban creatives")])
    rfl

/-- C6: auto-fill is one-shot and only-if-empty: a non-empty local prompt
field is never mutated by a campaign change on either consumer screen, and
a change of the field by the effect can only happen when the field was
empty. -/
theorem autoFill_only_when_empty (camp : Option ActiveCampaign)
    (tab : ImageTab) (p : String) :
    (p ≠ "" → imageStudioAutoFill camp tab p = p) ∧
    (p ≠ "" → videoLabAutoFill camp p = p) ∧
    (imageStudioAutoFill camp tab p ≠ p → p = "") ∧
    (videoLabAutoFill camp p ≠ p → p = "") := by
  rcases camp with _ | c
  · simp [imageStudioAutoFill, videoLabAutoFill]
  · refine ⟨?_, ?_, ?_, ?_⟩
    · intro hp
      simp [imageStudioAutoFill, hp]
    · intro hp
      simp [videoLabAutoFill, hp]
    · intro hne
      by_contra hp
      exact hne (by simp [imageStudioAutoFill, hp])
    · intro hne
      by_contra hp
      exact hne (by simp [videoLabAutoFill, hp])

/-- C6 witness: an already-edited prompt survives a campaign change on both
screens. -/
theorem autoFill_only_when_empty_witness :
    ("my edit" ≠ "" →
        imageStudioAutoFill (some ⟨"B", "vs", "vc", ["h"], "ta"⟩)
          ImageTab.generate "my edit" = "my edit") ∧
    ("my edit" ≠ "" →
        videoLabAutoFill (some ⟨"B", "vs", "vc", ["h"], "ta"⟩) "my edit" =
          "my edit") ∧
    (imageStudioAutoFill (some ⟨"B", "vs", "vc", ["h"], "ta"⟩)
        ImageTab.generate "my edit" ≠ "my edit" → "my edit" = "") ∧
    (videoLabAutoFill (some ⟨"B", "vs", "vc", ["h"], "ta"⟩) "my edit" ≠
        "my edit" → "my edit" = "") :=
  autoFill_only_when_empty (some ⟨"B", "vs", "vc", ["h"], "ta"⟩)
    ImageTab.generate "my edit"

/-- C7: the extraction request embeds exactly the 5000-character front
segment of the strategy text — all of it when it is no longer than 5000
characters — and its response schema asks for exactly the four fields
visualStyle, videoConcept, socialHooks, targetAudience. -/
theorem extractRequest_truncation (s : List Char) :
    extractPrompt s = extractPromptHead ++ s.take 5000 ++ extractPromptTail ∧
    (s.length ≤ 5000 → s.take 5000 = s) ∧
    (5000 ≤ s.length →
        (s.take 5000).length = 5000 ∧ s = s.take 5000 ++ s.drop 5000) ∧
    RespSchema.fieldNames extractResponseSchema =
      ["visualStyle", "videoConcept", "socialHooks", "targetAudience"] := by
  refine ⟨rfl, ?_, ?_, rfl⟩
  · intro h
    exact List.take_of_length_le h
  · intro h
    exact ⟨by rw [List.length_take]; omega, (List.take_append_drop 5000 s).symm⟩

/-- C7 witness: a short strategy text is embedded whole. -/
theorem extractRequest_truncation_witness :
    extractPrompt ("grow fast").data =
      extractPromptHead ++ ("grow fast").data.take 5000 ++ extractPromptTail ∧
    (("grow fast").data.length ≤ 5000 →
        ("grow fast").data.take 5000 = ("grow fast").data) ∧
    (5000 ≤ ("grow fast").data.length →
        (("grow fast").data.take 5000).length = 5000 ∧
        ("grow fast").data =
          ("grow fast").data.take 5000 ++ ("grow fast").data.drop 5000) ∧
    RespSchema.fieldNames extractResponseSchema =
      ["visualStyle", "videoConcept", "socialHooks", "targetAudience"] :=
  extractRequest_truncation ("grow fast").data

theorem firstInlineData_eq_none (parts : List ContentPart)
    (h : parts.all (fun p => p.inlineData.isNone) = true) :
    firstInlineData parts = none := by
  induction parts with
  | nil => rfl
  | cons p ps ih =>
      rw [List.all_cons, Bool.and_eq_true] at h
      obtain ⟨hp, hps⟩ := h
      unfold firstInlineData at ih ⊢
      rw [List.findSome?_cons]
      rcases hd : p.inlineData with _ | d
      · exact ih hps
      · rw [hd] at hp
        simp at hp

/-- C8: when no content part of the first candidate carries inline data the
image generation call fails with "No image generated", and when some part
does, it returns the data URI built from the first such part. -/
theorem proImage_requires_inline_part (r : GenContentResponse) :
    ((candidateParts r).all (fun p => p.inlineData.isNone) = true →
        generateProImage r = Except.error "No image generated") ∧
    (∀ d, firstInlineData (candidateParts r) = some d →
        generateProImage r = Except.ok ("data:image/png;base64," ++ d.data)) := by
  constructor
  · intro h
    simp [generateProImage, firstInlineData_eq_none _ h]
  · intro d hd
    simp [generateProImage, hd]

/-- C8 witness: a response whose only part is text fails with
"No image generated". -/
theorem proImage_requires_inline_part_witness :
    ((candidateParts
        (GenContentResponse.mk
          (some [ResponseCandidate.mk
            (some (CandidateContent.mk
              (some [ContentPart.mk (some "just text") none])))]))).all
        (fun p => p.inlineData.isNone) = true →
      generateProImage
          (GenContentResponse.mk
            (some [ResponseCandidate.mk
              (some (CandidateContent.mk
                (some [ContentPart.mk (some "just text") none])))])) =
        Except.error "No image generated") ∧
    (∀ d, firstInlineData (candidateParts
        (GenContentResponse.mk
          (some [ResponseCandidate.mk
            (some (CandidateContent.mk
              (some [ContentPart.mk (some "just text") none])))]))) = some d →
      generateProImage
          (GenContentResponse.mk
            (some [ResponseCandidate.mk
              (some (CandidateContent.mk
                (some [ContentPart.mk (some "just text") none])))])) =
        Except.ok ("data:image/png;base64," ++ d.data)) :=
  proImage_requires_inline_part
    (GenContentResponse.mk
      (some [ResponseCandidate.mk
        (some (CandidateContent.mk
          (some [ContentPart.mk (some "just text") none])))]))

/-! ### Split lemmas for the data-URI round trip -/

theorem jsSplitComma_no_comma (l : List Char) (h : ',' ∉ l) :
    jsSplitComma l = [l] := by
  induction l with
  | nil => rfl
  | cons c cs ih =>
      have hc : ¬ c = ',' := fun e => h (e ▸ List.mem_cons_self c cs)
      have hcs : ',' ∉ cs := fun m => h (List.mem_cons_of_mem c m)
      simp [jsSplitComma, hc, ih hcs]

theorem jsSplitComma_append (a b : List Char) (h : ',' ∉ a) :
    jsSplitComma (a ++ ',' :: b) = a :: jsSplitComma b := by
  induction a with
  | nil => simp [jsSplitComma]
  | cons c cs ih =>
      have hc : ¬ c = ',' := fun e => h (e ▸ List.mem_cons_self c cs)
      have hcs : ',' ∉ cs := fun m => h (List.mem_cons_of_mem c m)
      simp only [List.cons_append]
      simp [jsSplitComma, hc, ih hcs]

/-- C9: reading a file into a data URI and later extracting the base64
payload with split-at-comma returns exactly the original payload, for any
comma-free MIME type and any base64 payload. -/
theorem dataUrl_roundTrip (mime payload : List Char)
    (hm : ',' ∉ mime) (hp : payload.all isBase64Char = true) :
    remixBase64Data (readAsDataURLChars mime payload) = some payload := by
  have hpc : ',' ∉ payload := by
    intro hmem
    have hchar := List.all_eq_true.mp hp _ hmem
    exact absurd hchar (by decide)
  have hhead : ',' ∉ ("data:").data ++ mime ++ (";base64").data := by
    intro hmem
    rcases List.mem_append.mp hmem with h1 | h2
    · rcases List.mem_append.mp h1 with ha | hb
      · exact absurd ha (by decide)
      · exact hm hb
    · exact absurd h2 (by decide)
  have hform : readAsDataURLChars mime payload =
      (("data:").data ++ mime ++ (";base64").data) ++ (',' :: payload) := by
    unfold readAsDataURLChars
    simp [List.append_assoc]
  rw [remixBase64Data, hform, jsSplitComma_append _ _ hhead,
      jsSplitComma_no_comma _ hpc]
  rfl

/-- C9 witness: a PNG file whose content encodes to "QUJDRA==". -/
theorem dataUrl_roundTrip_witness :
    remixBase64Data
        (readAsDataURLChars ("image/png").data ("QUJDRA==").data) =
      some ("QUJDRA==").data :=
  dataUrl_roundTrip ("image/png").data ("QUJDRA==").data
    (by decide) (by decide)

end BrandStudio
